import Mathlib

/-!
Verification development for the DeFi position monitor repository
(AlphaLend position valuation and risk classification).

The Python source is shallowly embedded:
  * nested JSON-like dicts become the inductive type `PyVal`;
  * Python floats become rationals (all numeric claims here involve only
    values on which float arithmetic is exact, so `ℚ` is the faithful
    reading of the arithmetic the source performs);
  * Python dicts used as lookup tables (prices, decimals, aliases, the
    market cache) become association lists with first-match lookup;
  * `float("inf")` becomes a dedicated constructor of `HealthFactor`.

Sources embedded below:
  * `src/protocols/alphalend/parser.py` (pure parsing and math helpers),
  * `src/protocols/alphalend/adapter.py` (`_parse_position`, `_get_market_info`),
  * `src/services/monitor.py` (`_get_status`, `check_and_alert` log emission,
    `generate_daily_report` body construction).
-/

/-- Embedding of the Python JSON-like values the parser traverses.
Only the shapes the embedded code inspects are needed: integers
(covering on-chain u64 values), strings, dicts and lists. -/
inductive PyVal where
  | int (n : Int)
  | str (s : String)
  | dict (entries : List (String × PyVal))
  | list (xs : List PyVal)

/-- Python `d.get(key, default)`. The embedded code only applies `.get`
to values that are dicts; on a non-dict the embedding totalises to the
default. -/
def PyVal.get (v : PyVal) (k : String) (dflt : PyVal) : PyVal :=
  match v with
  | PyVal.dict es =>
      match es.find? (fun p => p.1 == k) with
      | some p => p.2
      | none => dflt
  | _ => dflt

/-- Accumulating decimal-digit parser over characters. -/
def digitsToNatAux (acc : Nat) : List Char → Option Nat
  | [] => some acc
  | c :: rest =>
      if c.isDigit then digitsToNatAux (acc * 10 + (c.toNat - (Char.toNat ('0')))) rest
      else none

/-- Parse a nonempty all-digit character list as a natural number. -/
def digitsToNat? : List Char → Option Nat
  | [] => none
  | cs => digitsToNatAux 0 cs

/-- Python `int(s)` on decimal string literals (optional leading minus
sign, then digits). -/
def strToInt? (s : String) : Option Int :=
  match s.data with
  | ('-') :: rest => (digitsToNat? rest).map (fun n => -(n : Int))
  | cs => (digitsToNat? cs).map (fun n => (n : Int))

/-- Python `int(x)` as the source uses it: on ints it is the identity and
on strings it parses the decimal representation (SUI JSON carries u64
values as strings). Other shapes do not occur in the embedded code. -/
def PyVal.toInt : PyVal → Int
  | PyVal.int n => n
  | PyVal.str s => (strToInt? s).getD 0
  | _ => 0

/-- Extract the string payload of a `PyVal` expected to be a string. -/
def PyVal.toStr : PyVal → String
  | PyVal.str s => s
  | _ => ""

/-- Extract the list payload of a `PyVal` expected to be a list. -/
def PyVal.toList : PyVal → List PyVal
  | PyVal.list xs => xs
  | _ => []

/-- Python truthiness for the shapes of `PyVal`: empty dicts, empty
lists, zero and the empty string are falsy. -/
def PyVal.truthy : PyVal → Bool
  | PyVal.int n => n != 0
  | PyVal.str s => !s.data.isEmpty
  | PyVal.dict es => !es.isEmpty
  | PyVal.list xs => !xs.isEmpty

/-- Whether `x` is a Python dict (the `isinstance(x, dict)` test). -/
def PyVal.isDict : PyVal → Bool
  | PyVal.dict _ => true
  | _ => false

/-- Python `prices.get(symbol, 0.0)` over an association-list price
table. -/
def dictGetQ (d : List (String × ℚ)) (k : String) : ℚ :=
  match d.find? (fun p => p.1 == k) with
  | some p => p.2
  | none => 0

/-- Key lookup that distinguishes a missing key from a present one
(used to state claims that talk about absence). -/
def lookupQ (d : List (String × ℚ)) (k : String) : Option ℚ :=
  (d.find? (fun p => p.1 == k)).map (fun p => p.2)

/-- Python `token_aliases[symbol]` guarded by `symbol in token_aliases`:
`none` models the key being absent. -/
def lookupS (d : List (String × String)) (k : String) : Option String :=
  (d.find? (fun p => p.1 == k)).map (fun p => p.2)

/-- Membership-plus-lookup for the decimals table,
Python `token_decimals.get(token_symbol, 9)`. -/
def dictGetD (d : List (String × Nat)) (k : String) (dflt : Nat) : Nat :=
  match d.find? (fun p => p.1 == k) with
  | some p => p.2
  | none => dflt

/-- Python `s.split("::")`, written over character lists (scanning left
to right for the two-character separator, as CPython does). -/
def splitOnColons : List Char → List (List Char)
  | [] => [[]]
  | (':') :: (':') :: rest => [] :: splitOnColons rest
  | c :: rest =>
      match splitOnColons rest with
      | [] => [[c]]
      | seg :: segs => (c :: seg) :: segs

/-- Python `s.upper()` over the embedded (ASCII) symbol strings. -/
def strUpper (s : String) : String :=
  String.mk (s.data.map Char.toUpper)

/-- Embeds `get_token_symbol` from `parser.py`: take the segment after
the last `::` separator (the whole string when there is none) and
upper-case it. The Python guard `"::" in coin_type` holds exactly when
the split yields more than one segment. -/
def get_token_symbol (coin_type : String) : String :=
  if (splitOnColons coin_type.data).length > 1 then
    strUpper (String.mk ((splitOnColons coin_type.data).getLastD coin_type.data))
  else
    strUpper coin_type

/-- Embeds `get_decimals` from `parser.py`: configured decimals with a
default of 9. -/
def get_decimals (token_symbol : String) (token_decimals : List (String × Nat)) : Nat :=
  dictGetD token_decimals token_symbol 9

/-- Embeds `resolve_price` from `parser.py`: direct lookup, alias
fallback when the direct result is exactly zero and an alias exists. -/
def resolve_price (token_symbol : String) (prices : List (String × ℚ))
    (token_aliases : List (String × String)) : ℚ :=
  let price := dictGetQ prices token_symbol
  if price = 0 then
    match lookupS token_aliases token_symbol with
    | some a => dictGetQ prices a
    | none => price
  else
    price

/-- Result record of `parse_collateral_entry` (the dict the Python
function returns, with its five keys as fields). -/
structure CollateralDetail where
  symbol : String
  market_id : Int
  amount : ℚ
  price : ℚ
  usd_value : ℚ
deriving Repr, DecidableEq

/-- Result record of `parse_loan_entry`. -/
structure LoanDetail where
  symbol : String
  amount : ℚ
  price : ℚ
  usd_value : ℚ
deriving Repr, DecidableEq

/-- Embeds `parse_collateral_entry` from `parser.py`: shares and market
id from the entry, coin type, exchange ratio (dict-wrapped or plain,
defaulting to 10^18) from the market record, then
`amount = shares * xtoken_ratio / 10^18 / 10^decimals`. -/
def parse_collateral_entry (entry : PyVal) (market_info : PyVal)
    (prices : List (String × ℚ)) (token_decimals : List (String × Nat))
    (token_aliases : List (String × String)) : CollateralDetail :=
  let fields := entry.get ("fields") (PyVal.dict [])
  let market_id := (fields.get ("key") (PyVal.int 0)).toInt
  let shares := (fields.get ("value") (PyVal.int 0)).toInt
  let coin_type :=
    (((market_info.get ("coin_type") (PyVal.dict [])).get ("fields")
      (PyVal.dict [])).get ("name") (PyVal.str ("Unknown"))).toStr
  let symbol := get_token_symbol coin_type
  let decimals := get_decimals symbol token_decimals
  let xtoken_ratio_raw := market_info.get ("xtoken_ratio") (PyVal.int (10 ^ 18))
  let xtoken_ratio : Int :=
    if xtoken_ratio_raw.isDict then
      ((xtoken_ratio_raw.get ("fields") (PyVal.dict [])).get ("value")
        (PyVal.int (10 ^ 18))).toInt
    else
      xtoken_ratio_raw.toInt
  let amount : ℚ := ((shares * xtoken_ratio : Int) : ℚ) / (10 ^ 18) / (10 ^ decimals)
  let price := resolve_price symbol prices token_aliases
  let usd_value := amount * price
  { symbol := symbol, market_id := market_id, amount := amount,
    price := price, usd_value := usd_value }

/-- Embeds `parse_loan_entry` from `parser.py`: raw amount and embedded
coin type from the entry, then `amount = raw_amount / 10^decimals`. -/
def parse_loan_entry (entry : PyVal) (prices : List (String × ℚ))
    (token_decimals : List (String × Nat))
    (token_aliases : List (String × String)) : LoanDetail :=
  let fields := entry.get ("fields") (PyVal.dict [])
  let raw_amount := (fields.get ("amount") (PyVal.int 0)).toInt
  let coin_type :=
    (((fields.get ("coin_type") (PyVal.dict [])).get ("fields")
      (PyVal.dict [])).get ("name") (PyVal.str ("Unknown"))).toStr
  let symbol := get_token_symbol coin_type
  let decimals := get_decimals symbol token_decimals
  let amount : ℚ := (raw_amount : ℚ) / (10 ^ decimals)
  let price := resolve_price symbol prices token_aliases
  let usd_value := amount * price
  { symbol := symbol, amount := amount, price := price, usd_value := usd_value }

/-- Embeds `calc_ltv` from `parser.py`. -/
def calc_ltv (total_collateral_usd : ℚ) (total_borrowed_usd : ℚ) : ℚ :=
  if total_collateral_usd ≤ 0 then 0
  else (total_borrowed_usd / total_collateral_usd) * 100

/-- Value of `calc_health_factor`: either the Python float infinity or a
finite value. -/
inductive HealthFactor where
  | inf
  | val (q : ℚ)
deriving Repr, DecidableEq

/-- Embeds `calc_health_factor` from `parser.py`. -/
def calc_health_factor (total_collateral_usd : ℚ) (total_borrowed_usd : ℚ)
    (liquidation_threshold : ℚ) : HealthFactor :=
  if total_borrowed_usd ≤ 0 then HealthFactor.inf
  else HealthFactor.val ((total_collateral_usd * liquidation_threshold / 100) / total_borrowed_usd)

-- scratch sanity checks (removed before the final version)
/-- The per-asset record the adapter builds from a parsed detail dict
(`AssetDetail` in `models.py`). -/
structure AssetDetail where
  symbol : String
  amount : ℚ
  price : ℚ
  usd_value : ℚ
deriving Repr, DecidableEq

/-- The numeric and per-asset fields of the `PositionData` record built
by `AlphaLendAdapter._parse_position` (the two human-readable summary
strings, built by `build_asset_summary`, and the two pass-through
booleans used only for logging are not needed by any claim and are
omitted). -/
structure PositionData where
  collateral_value : ℚ
  borrowed_value : ℚ
  ltv : ℚ
  health_factor : HealthFactor
  liquidation_threshold : ℚ
  collateral_assets : List AssetDetail
  borrowed_assets : List AssetDetail
deriving Repr, DecidableEq

/-- Conversion from a collateral detail dict to `AssetDetail`
(adapter lines building `collateral_assets`). -/
def collateralToAsset (d : CollateralDetail) : AssetDetail :=
  { symbol := d.symbol, amount := d.amount, price := d.price, usd_value := d.usd_value }

/-- Conversion from a loan detail dict to `AssetDetail`
(adapter lines building `borrowed_assets`). -/
def loanToAsset (d : LoanDetail) : AssetDetail :=
  { symbol := d.symbol, amount := d.amount, price := d.price, usd_value := d.usd_value }

/-- Embeds `AlphaLendAdapter._parse_position`: extract the collateral
and loan entry lists from the raw position record, parse each entry
(the market record for a collateral entry comes from `market_lookup`,
which stands for the possibly-cached `_get_market_info` results of this
cycle), accumulate the USD totals exactly as the Python loop does
(running `+=` from `0.0`, embedded as a left fold from `0`), and
assemble the `PositionData`. -/
def parse_position (position_data : PyVal) (market_lookup : Int → PyVal)
    (prices : List (String × ℚ)) (token_decimals : List (String × Nat))
    (token_aliases : List (String × String))
    (liquidation_threshold : ℚ) : PositionData :=
  let collaterals_raw :=
    (((position_data.get ("collaterals") (PyVal.dict [])).get ("fields")
      (PyVal.dict [])).get ("contents") (PyVal.list [])).toList
  let collateral_details := collaterals_raw.map (fun entry =>
    let market_id := ((entry.get ("fields") (PyVal.dict [])).get ("key") (PyVal.int 0)).toInt
    parse_collateral_entry entry (market_lookup market_id) prices token_decimals token_aliases)
  let total_collateral_usd := collateral_details.foldl (fun acc d => acc + d.usd_value) 0
  let loans_raw := (position_data.get ("loans") (PyVal.list [])).toList
  let loan_details := loans_raw.map (fun entry =>
    parse_loan_entry entry prices token_decimals token_aliases)
  let total_loan_usd := loan_details.foldl (fun acc d => acc + d.usd_value) 0
  { collateral_value := total_collateral_usd
    borrowed_value := total_loan_usd
    ltv := calc_ltv total_collateral_usd total_loan_usd
    health_factor := calc_health_factor total_collateral_usd total_loan_usd liquidation_threshold
    liquidation_threshold := liquidation_threshold
    collateral_assets := collateral_details.map collateralToAsset
    borrowed_assets := loan_details.map loanToAsset }

/-- The nested extraction `result["content"]["fields"]["value"]["fields"]`
performed by `_get_market_info` on a raw RPC result (every level
defaulting to an empty dict). -/
def extract_market (result : PyVal) : PyVal :=
  (((result.get ("content") (PyVal.dict [])).get ("fields")
    (PyVal.dict [])).get ("value") (PyVal.dict [])).get ("fields") (PyVal.dict [])

/-- Embeds `AlphaLendAdapter._get_market_info` (identical logic in
`PositionService.get_market_info`) as a state transformer on the market
cache. The RPC collaborator is `fetch`; `none` models the call raising
an exception, `some r` the returned value, whose Python truthiness
gates the `if not result` guard. Returns the market record together
with the cache after the call. -/
def get_market_info (cache : List (Int × PyVal)) (fetch : Int → Option PyVal)
    (market_id : Int) : PyVal × List (Int × PyVal) :=
  match cache.find? (fun p => p.1 == market_id) with
  | some p => (p.2, cache)
  | none =>
      match fetch market_id with
      | none => (PyVal.dict [], cache)
      | some result =>
          if result.truthy then
            let market := extract_market result
            (market, (market_id, market) :: cache)
          else
            (PyVal.dict [], cache)

/-- Embeds `Monitor._get_status`: tier classification of an LTV value
against the configured warning and critical thresholds. -/
def get_status (ltv : ℚ) (ltv_warning : ℚ) (ltv_critical : ℚ) : String :=
  if ltv ≥ ltv_critical then ("🚨 CRITICAL")
  else if ltv ≥ ltv_warning then ("⚠️ WARNING")
  else ("✅ Healthy")

/-- Wallet entry of the application configuration, as `check_and_alert`
reads it. -/
structure WalletCfg where
  address : String
  label : String
  chain : String
  protocols : List String

/-- Membership test for the adapter registry,
Python `self._adapters.get(proto_name)` being non-`None`. -/
def hasAdapter (adapters : List String) (proto : String) : Bool :=
  adapters.contains proto

/-- The log message `check_and_alert` builds for a wallet×protocol pair
with no positions (source lines 206 to 212), with the current time
passed in as a string. -/
def no_positions_log (label : String) (proto : String) (chain : String)
    (now : String) : String :=
  ("📊 ") ++ label ++ (" · ") ++ proto ++ (" · ") ++ strUpper chain ++
  ("\n\nNo active positions found.\n\n") ++ now ++ (" UTC")

/-- Embeds the log emission of `Monitor.check_and_alert`: one message
per wallet×protocol pair without positions, and one message per
position otherwise. The per-position message builder
(`_build_log_message`, pure string formatting of numbers) is passed in
as `fmt_pos`; the alert sends are a separate channel and not part of
the emitted log list. -/
def check_and_alert_logs (wallets : List WalletCfg) (adapters : List String)
    (fetch : String → String → List PositionData)
    (fmt_pos : PositionData → String → String → String → String)
    (now : String) : List String :=
  wallets.flatMap (fun w =>
    w.protocols.flatMap (fun proto =>
      if hasAdapter adapters proto then
        let positions := fetch w.address proto
        if positions.isEmpty then
          [no_positions_log w.label proto w.chain now]
        else
          positions.map (fun p => fmt_pos p w.label proto w.chain)
      else []))

/-- The per-position report lines a single wallet contributes in
`Monitor.generate_daily_report` (inner loops over its protocols and
their positions); `fmt_line` stands for the numeric string formatting
of one position line. -/
def daily_wallet_lines (w : WalletCfg) (adapters : List String)
    (fetch : String → String → List PositionData)
    (fmt_line : String → PositionData → String) : List String :=
  w.protocols.flatMap (fun proto =>
    if hasAdapter adapters proto then
      (fetch w.address proto).map (fun p => fmt_line proto p)
    else [])

/-- Embeds the body construction of `Monitor.generate_daily_report`:
one section per wallet with at least one line, joined by blank lines;
the body degenerates to the global no-positions message exactly when
no wallet produced a section. -/
def daily_report_body (wallets : List WalletCfg) (adapters : List String)
    (fetch : String → String → List PositionData)
    (fmt_line : String → PositionData → String) : String :=
  let sections := (wallets.map (fun w =>
    let wallet_lines := daily_wallet_lines w adapters fetch fmt_line
    if wallet_lines.isEmpty then none
    else some ((("━━ ") ++ w.label ++ (" (") ++ strUpper w.chain ++ (") ━━")) ++
      ("\n\n") ++ (String.intercalate ("\n\n") wallet_lines)))).reduceOption
  if sections.isEmpty then ("No active positions found.")
  else String.intercalate ("\n\n") sections

/-- Whether `needle` occurs at the start of `hay` (character lists). -/
def charsStartWith : List Char → List Char → Bool
  | [], _ => true
  | _ :: _, [] => false
  | a :: as, b :: bs => a == b && charsStartWith as bs

/-- Whether `needle` occurs contiguously anywhere in `hay`. -/
def charsHaveSeg (needle : List Char) : List Char → Bool
  | [] => charsStartWith needle []
  | c :: rest => charsStartWith needle (c :: rest) || charsHaveSeg needle rest

/-- Substring occurrence on strings, used to state which fixed phrases
a produced message contains. -/
def strHasSeg (needle hay : String) : Bool :=
  charsHaveSeg needle.data hay.data

/-- An all-zero position with no assets, used as a concrete sample. -/
def samplePosition : PositionData :=
  { collateral_value := 0
    borrowed_value := 0
    ltv := 0
    health_factor := HealthFactor.inf
    liquidation_threshold := 85
    collateral_assets := []
    borrowed_assets := [] }

/-- Sample wallet whose single monitored protocol has no positions. -/
def sampleWalletA : WalletCfg :=
  { address := ("0xaaa"), label := ("W1"), chain := ("sui"),
    protocols := [("alphalend")] }

/-- Sample wallet whose single monitored protocol has one position. -/
def sampleWalletB : WalletCfg :=
  { address := ("0xbbb"), label := ("W2"), chain := ("sui"),
    protocols := [("alphalend")] }

/-- Sample position fetcher: nothing for wallet A, one position for
wallet B. -/
def sampleFetch : String → String → List PositionData :=
  fun addr _ => if addr == ("0xbbb") then [samplePosition] else []

/-- Sample per-position report-line formatter. -/
def sampleFmtLine : String → PositionData → String :=
  fun proto _ => proto ++ (" line")

/-- Sample RPC fetch behaviour whose raw result is truthy but whose
nested market payload is missing. -/
def emptyMarketFetch : Int → Option PyVal :=
  fun _ => some (PyVal.dict [(("content"), PyVal.dict [])])

/-- Builder for a raw collateral entry with the given market key and
share count, the shape `_parse_position` iterates over. -/
def entryOf (market_id : Int) (shares : Int) : PyVal :=
  PyVal.dict [(("fields"), PyVal.dict [(("key"), PyVal.int market_id),
    (("value"), PyVal.int shares)])]

/-- Builder for a market record carrying a coin type and a plain
integer exchange ratio. -/
def marketOf (coin : String) (ratio : Int) : PyVal :=
  PyVal.dict [(("coin_type"), PyVal.dict [(("fields"),
      PyVal.dict [(("name"), PyVal.str coin)])]),
    (("xtoken_ratio"), PyVal.int ratio)]

/-- Builder for a market record that carries a coin type but no
`xtoken_ratio` key, exercising the default of 10^18. -/
def marketOfNoRatio (coin : String) : PyVal :=
  PyVal.dict [(("coin_type"), PyVal.dict [(("fields"),
    PyVal.dict [(("name"), PyVal.str coin)])])]

/-- Builder for a raw loan entry with the given raw amount and embedded
coin type. -/
def loanEntryOf (amount : Int) (coin : String) : PyVal :=
  PyVal.dict [(("fields"), PyVal.dict [(("amount"), PyVal.int amount),
    (("coin_type"), PyVal.dict [(("fields"),
      PyVal.dict [(("name"), PyVal.str coin)])])])]

/-- Unfolding of `parse_collateral_entry` on a well-formed entry and a
market record with a plain integer exchange ratio. -/
theorem parse_collateral_entry_eval (mid shares ratio : Int) (coin : String)
    (prices : List (String × ℚ)) (td : List (String × Nat))
    (ta : List (String × String)) :
    parse_collateral_entry (entryOf mid shares) (marketOf coin ratio) prices td ta =
      { symbol := get_token_symbol coin
        market_id := mid
        amount := ((shares * ratio : Int) : ℚ) / (10 ^ 18) /
          (10 ^ (get_decimals (get_token_symbol coin) td))
        price := resolve_price (get_token_symbol coin) prices ta
        usd_value := ((shares * ratio : Int) : ℚ) / (10 ^ 18) /
          (10 ^ (get_decimals (get_token_symbol coin) td)) *
          resolve_price (get_token_symbol coin) prices ta } := rfl

/-- Unfolding of `parse_collateral_entry` when the market record has no
`xtoken_ratio` key: the ratio defaults to 10^18. -/
theorem parse_collateral_entry_noratio_eval (mid shares : Int) (coin : String)
    (prices : List (String × ℚ)) (td : List (String × Nat))
    (ta : List (String × String)) :
    parse_collateral_entry (entryOf mid shares) (marketOfNoRatio coin) prices td ta =
      { symbol := get_token_symbol coin
        market_id := mid
        amount := ((shares * 10 ^ 18 : Int) : ℚ) / (10 ^ 18) /
          (10 ^ (get_decimals (get_token_symbol coin) td))
        price := resolve_price (get_token_symbol coin) prices ta
        usd_value := ((shares * 10 ^ 18 : Int) : ℚ) / (10 ^ 18) /
          (10 ^ (get_decimals (get_token_symbol coin) td)) *
          resolve_price (get_token_symbol coin) prices ta } := rfl

/-- Unfolding of `parse_loan_entry` on a well-formed loan entry. -/
theorem parse_loan_entry_eval (amt : Int) (coin : String)
    (prices : List (String × ℚ)) (td : List (String × Nat))
    (ta : List (String × String)) :
    parse_loan_entry (loanEntryOf amt coin) prices td ta =
      { symbol := get_token_symbol coin
        amount := (amt : ℚ) / (10 ^ (get_decimals (get_token_symbol coin) td))
        price := resolve_price (get_token_symbol coin) prices ta
        usd_value := (amt : ℚ) / (10 ^ (get_decimals (get_token_symbol coin) td)) *
          resolve_price (get_token_symbol coin) prices ta } := rfl

/-- Unfolding of `parse_collateral_entry` when the market lookup came
back empty: the coin type defaults to the placeholder string. -/
theorem parse_collateral_entry_empty_market_eval (mid shares : Int)
    (prices : List (String × ℚ)) (td : List (String × Nat))
    (ta : List (String × String)) :
    parse_collateral_entry (entryOf mid shares) (PyVal.dict []) prices td ta =
      { symbol := ("UNKNOWN")
        market_id := mid
        amount := ((shares * 10 ^ 18 : Int) : ℚ) / (10 ^ 18) /
          (10 ^ (get_decimals ("UNKNOWN") td))
        price := resolve_price ("UNKNOWN") prices ta
        usd_value := ((shares * 10 ^ 18 : Int) : ℚ) / (10 ^ 18) /
          (10 ^ (get_decimals ("UNKNOWN") td)) *
          resolve_price ("UNKNOWN") prices ta } := rfl

/-- Claim C1: for every collateral entry the converted token amount is
raw shares times the exchange ratio divided by 10^18 and then by
10^decimals, with the exchange ratio defaulting to 10^18 when the
market record does not supply one; for every loan entry the converted
amount is the raw amount divided by 10^decimals; and the round-trip
example with shares 500000000000, ratio 10^18, 9 decimals and price
3.50 yields amount 500 and USD value 1750. -/
theorem C1_fixed_point_conversion (mid shares ratio raw : Int) (coin : String)
    (prices : List (String × ℚ)) (td : List (String × Nat))
    (ta : List (String × String)) :
    ((parse_collateral_entry (entryOf mid shares) (marketOf coin ratio) prices td ta).amount
      = (shares : ℚ) * (ratio : ℚ) / (10 ^ 18) / (10 ^ (get_decimals (get_token_symbol coin) td)))
    ∧ ((parse_collateral_entry (entryOf mid shares) (marketOfNoRatio coin) prices td ta).amount
      = (shares : ℚ) * ((10 : ℚ) ^ 18) / (10 ^ 18) / (10 ^ (get_decimals (get_token_symbol coin) td)))
    ∧ ((parse_loan_entry (loanEntryOf raw coin) prices td ta).amount
      = (raw : ℚ) / (10 ^ (get_decimals (get_token_symbol coin) td)))
    ∧ ((parse_collateral_entry (entryOf 1 500000000000)
        (marketOf ("0x2::sui::SUI") (10 ^ 18))
        [(("SUI"), (3.5 : ℚ))] [(("SUI"), 9)] []).amount = 500)
    ∧ ((parse_collateral_entry (entryOf 1 500000000000)
        (marketOf ("0x2::sui::SUI") (10 ^ 18))
        [(("SUI"), (3.5 : ℚ))] [(("SUI"), 9)] []).usd_value = 1750) := by
  refine ⟨?_, ?_, ?_, ?_, ?_⟩
  · rw [parse_collateral_entry_eval]
    push_cast
    ring
  · rw [parse_collateral_entry_noratio_eval]
    push_cast
    ring
  · rw [parse_loan_entry_eval]
  · rw [parse_collateral_entry_eval]
    have hsym : get_token_symbol ("0x2::sui::SUI") = ("SUI") := by decide
    have hdec : get_decimals ("SUI") [(("SUI"), 9)] = 9 := rfl
    rw [hsym, hdec]
    norm_num
  · rw [parse_collateral_entry_eval]
    have hsym : get_token_symbol ("0x2::sui::SUI") = ("SUI") := by decide
    have hdec : get_decimals ("SUI") [(("SUI"), 9)] = 9 := rfl
    have hdq : dictGetQ [(("SUI"), (3.5 : ℚ))] ("SUI") = (3.5 : ℚ) := rfl
    have hpr : resolve_price ("SUI") [(("SUI"), (3.5 : ℚ))] [] = (3.5 : ℚ) := by
      simp only [resolve_price, hdq]
      norm_num
    rw [hsym, hdec, hpr]
    norm_num

/-- Claim C2: `calc_ltv` returns 0 whenever the collateral total is 0,
whatever the borrowed total is, and otherwise (over the nonnegative
totals the valuation produces) returns 100 times borrowed over
collateral. -/
theorem C2_calc_ltv (c b : ℚ) (hc : 0 ≤ c) :
    (c = 0 → calc_ltv c b = 0) ∧ (c ≠ 0 → calc_ltv c b = 100 * b / c) := by
  constructor
  · intro h0
    simp [calc_ltv, h0]
  · intro hne
    have hpos : 0 < c := lt_of_le_of_ne hc (Ne.symm hne)
    rw [calc_ltv, if_neg (not_le.mpr hpos)]
    ring

/-- Witness for C2 at concrete totals: zero collateral with positive
debt yields 0, and 10000 collateral with 5000 debt yields the
ratio formula. -/
theorem C2_calc_ltv_witness :
    calc_ltv 0 5000 = 0 ∧ calc_ltv 10000 5000 = 100 * 5000 / 10000 :=
  ⟨(C2_calc_ltv 0 5000 le_rfl).1 rfl,
   (C2_calc_ltv 10000 5000 (by norm_num)).2 (by norm_num)⟩

/-- Claim C3: `calc_health_factor` returns the infinity marker whenever
the borrowed total is 0, otherwise (over nonnegative totals) the
collateral scaled by the liquidation threshold percentage divided by
the borrowed total; at collateral 10000, borrowed 8500 and threshold 85
it is exactly 1. -/
theorem C3_calc_health_factor (c b lt : ℚ) (hc : 0 ≤ c) (hb : 0 ≤ b) :
    (b = 0 → calc_health_factor c b lt = HealthFactor.inf)
    ∧ (b ≠ 0 → calc_health_factor c b lt = HealthFactor.val ((c * lt / 100) / b))
    ∧ calc_health_factor 10000 8500 85 = HealthFactor.val 1 := by
  refine ⟨?_, ?_, ?_⟩
  · intro h0
    simp [calc_health_factor, h0]
  · intro hne
    have hpos : 0 < b := lt_of_le_of_ne hb (Ne.symm hne)
    rw [calc_health_factor, if_neg (not_le.mpr hpos)]
  · norm_num [calc_health_factor]

/-- Witness for C3 at concrete totals: zero debt gives infinity, and
the boundary example gives exactly 1. -/
theorem C3_calc_health_factor_witness :
    calc_health_factor 10000 0 85 = HealthFactor.inf
    ∧ calc_health_factor 10000 8500 85 = HealthFactor.val 1 :=
  ⟨(C3_calc_health_factor 10000 0 85 (by norm_num) le_rfl).1 rfl,
   (C3_calc_health_factor 10000 8500 85 (by norm_num) (by norm_num)).2.2⟩

/-- Claim C4: the status classification is Critical exactly from the
critical threshold upward, Warning from the warning threshold upward
below that, Healthy below both, boundaries belonging to the
higher-severity tier; with the boundary examples at thresholds 70
and 80. -/
theorem C4_alert_classification (ltv warn crit : ℚ) :
    (ltv ≥ crit → get_status ltv warn crit = ("🚨 CRITICAL"))
    ∧ (ltv < crit → ltv ≥ warn → get_status ltv warn crit = ("⚠️ WARNING"))
    ∧ (ltv < crit → ltv < warn → get_status ltv warn crit = ("✅ Healthy"))
    ∧ get_status 70 70 80 = ("⚠️ WARNING")
    ∧ get_status 80 70 80 = ("🚨 CRITICAL")
    ∧ get_status (69.999 : ℚ) 70 80 = ("✅ Healthy") := by
  refine ⟨?_, ?_, ?_, ?_, ?_, ?_⟩
  · intro h
    rw [get_status, if_pos h]
  · intro hc hw
    rw [get_status, if_neg (not_le.mpr hc), if_pos hw]
  · intro hc hw
    rw [get_status, if_neg (not_le.mpr hc), if_neg (not_le.mpr hw)]
  · norm_num [get_status]
  · norm_num [get_status]
  · norm_num [get_status]

/-- Witness for C4: the three tier rules applied at concrete LTV values
85, 75 and 50 against thresholds 70 and 80. -/
theorem C4_alert_classification_witness :
    get_status 85 70 80 = ("🚨 CRITICAL")
    ∧ get_status 75 70 80 = ("⚠️ WARNING")
    ∧ get_status 50 70 80 = ("✅ Healthy") :=
  ⟨(C4_alert_classification 85 70 80).1 (by norm_num),
   (C4_alert_classification 75 70 80).2.1 (by norm_num) (by norm_num),
   (C4_alert_classification 50 70 80).2.2.1 (by norm_num) (by norm_num)⟩

/-- Claim C5: price resolution returns the direct table entry when it
is present and nonzero; when the direct entry is absent or exactly
zero it falls back to the alias target when an alias exists (returning
that target entry, or 0 when the target is absent too) and to 0 when no
alias exists; with the XBTC alias example and the missing DOGE
example. -/
theorem C5_resolve_price (sym : String) (prices : List (String × ℚ))
    (aliases : List (String × String)) :
    (∀ p, lookupQ prices sym = some p → p ≠ 0 → resolve_price sym prices aliases = p)
    ∧ ((lookupQ prices sym = none ∨ lookupQ prices sym = some 0) →
        (∀ a, lookupS aliases sym = some a →
          resolve_price sym prices aliases = dictGetQ prices a
          ∧ (lookupQ prices a = none → resolve_price sym prices aliases = 0))
        ∧ (lookupS aliases sym = none → resolve_price sym prices aliases = 0))
    ∧ resolve_price ("XBTC") [(("BTC"), 100000)] [(("XBTC"), ("BTC"))] = 100000
    ∧ resolve_price ("DOGE") [] [] = 0 := by
  have hgq : ∀ (d : List (String × ℚ)) (k : String),
      dictGetQ d k = (lookupQ d k).getD 0 := by
    intro d k
    rw [dictGetQ, lookupQ]
    cases d.find? (fun p => p.1 == k) <;> rfl
  refine ⟨?_, ?_, ?_, ?_⟩
  · intro p hp hne
    rw [resolve_price]
    rw [hgq, hp]
    simp [hne]
  · intro hmiss
    have hzero : dictGetQ prices sym = 0 := by
      rcases hmiss with h | h <;> rw [hgq, h] <;> rfl
    constructor
    · intro a ha
      constructor
      · rw [resolve_price, hzero]
        simp [ha]
      · intro hna
        rw [resolve_price, hzero]
        simp [ha, hgq, hna]
    · intro hna
      rw [resolve_price, hzero]
      simp [hna]
  · rfl
  · rfl

/-- The price-table getter with default 0 is the optional lookup with
default 0. -/
theorem dictGetQ_eq (d : List (String × ℚ)) (k : String) :
    dictGetQ d k = (lookupQ d k).getD 0 := by
  rw [dictGetQ, lookupQ]
  cases d.find? (fun p => p.1 == k) <;> rfl

/-- Claim C6 counterexample: on an empty market record the produced
symbol is the upper-cased placeholder, not the literal string the claim
names. -/
theorem C6_counterexample :
    (parse_collateral_entry (entryOf 1 1000000000) (PyVal.dict []) [] [] []).symbol
      ≠ ("Unknown") := by
  decide

/-- Claim C6 as amended: on an empty market record the entry is parsed
with placeholder symbol UNKNOWN (the default coin type Unknown,
upper-cased); when the price table resolves no price for that
placeholder (no UNKNOWN entry and no UNKNOWN alias) its price and USD
value are 0; and position valuation still produces one asset record
per raw collateral entry, whatever the market lookups return, rather
than aborting. -/
theorem C6_empty_market_placeholder (mid shares : Int)
    (prices : List (String × ℚ)) (td : List (String × Nat))
    (ta : List (String × String))
    (hp : lookupQ prices ("UNKNOWN") = none)
    (ha : lookupS ta ("UNKNOWN") = none) :
    (parse_collateral_entry (entryOf mid shares) (PyVal.dict []) prices td ta).symbol
      = ("UNKNOWN")
    ∧ (parse_collateral_entry (entryOf mid shares) (PyVal.dict []) prices td ta).price = 0
    ∧ (parse_collateral_entry (entryOf mid shares) (PyVal.dict []) prices td ta).usd_value = 0
    ∧ ∀ (position_data : PyVal) (ml : Int → PyVal) (liq : ℚ),
        (parse_position position_data ml prices td ta liq).collateral_assets.length =
          (((position_data.get ("collaterals") (PyVal.dict [])).get ("fields")
            (PyVal.dict [])).get ("contents") (PyVal.list [])).toList.length := by
  have hpr : resolve_price ("UNKNOWN") prices ta = 0 := by
    simp [resolve_price, dictGetQ_eq, hp, ha]
  refine ⟨?_, ?_, ?_, ?_⟩
  · rw [parse_collateral_entry_empty_market_eval]
  · rw [parse_collateral_entry_empty_market_eval]
    exact hpr
  · rw [parse_collateral_entry_empty_market_eval]
    simp [hpr]
  · intro position_data ml liq
    simp [parse_position]

/-- Witness for C6: the placeholder parse applied with a concrete
nonempty price table that has no UNKNOWN entry. -/
theorem C6_empty_market_placeholder_witness :
    (parse_collateral_entry (entryOf 2 7) (PyVal.dict [])
      [(("SUI"), (3.5 : ℚ))] [] []).symbol = ("UNKNOWN")
    ∧ (parse_collateral_entry (entryOf 2 7) (PyVal.dict [])
      [(("SUI"), (3.5 : ℚ))] [] []).usd_value = 0 :=
  ⟨(C6_empty_market_placeholder 2 7 [(("SUI"), (3.5 : ℚ))] [] [] rfl rfl).1,
   (C6_empty_market_placeholder 2 7 [(("SUI"), (3.5 : ℚ))] [] [] rfl rfl).2.2.1⟩

/-- Folding running addition from an initial value is the initial value
plus the mapped sum (the shape of the running `+=` accumulations in
`_parse_position`). -/
theorem foldl_add_eq_sum {α : Type} (f : α → ℚ) (l : List α) (init : ℚ) :
    l.foldl (fun acc d => acc + f d) init = init + (l.map f).sum := by
  induction l generalizing init with
  | nil => simp
  | cons x xs ih =>
      rw [List.foldl_cons, ih, List.map_cons, List.sum_cons, add_assoc]

/-- Claim C7: in every position record the valuation produces, the
collateral total is the sum of the USD values of the collateral asset
records, and the borrowed total is the sum of the USD values of the
borrowed asset records (exactly, in the rational embedding, hence
within any floating tolerance). -/
theorem C7_totals_are_sums (position_data : PyVal) (ml : Int → PyVal)
    (prices : List (String × ℚ)) (td : List (String × Nat))
    (ta : List (String × String)) (liq : ℚ) :
    (parse_position position_data ml prices td ta liq).collateral_value
      = ((parse_position position_data ml prices td ta liq).collateral_assets.map
          (fun a => a.usd_value)).sum
    ∧ (parse_position position_data ml prices td ta liq).borrowed_value
      = ((parse_position position_data ml prices td ta liq).borrowed_assets.map
          (fun a => a.usd_value)).sum := by
  constructor <;>
  · simp [parse_position, foldl_add_eq_sum, List.map_map, Function.comp,
      collateralToAsset, loanToAsset]
    rfl

/-- Claim C8: the share conversion is nonnegative for all nonnegative
inputs and monotone in the raw share count with the exchange ratio and
the decimals table fixed. -/
theorem C8_conversion_monotone (mid : Int) (s1 s2 r : ℕ) (coin : String)
    (prices : List (String × ℚ)) (td : List (String × Nat))
    (ta : List (String × String)) (h : s1 ≤ s2) :
    0 ≤ (parse_collateral_entry (entryOf mid (s1 : Int)) (marketOf coin (r : Int))
          prices td ta).amount
    ∧ (parse_collateral_entry (entryOf mid (s1 : Int)) (marketOf coin (r : Int))
        prices td ta).amount
      ≤ (parse_collateral_entry (entryOf mid (s2 : Int)) (marketOf coin (r : Int))
          prices td ta).amount := by
  rw [parse_collateral_entry_eval, parse_collateral_entry_eval]
  constructor
  · push_cast
    positivity
  · push_cast
    gcongr

/-- Witness for C8 at shares 3 and 5, ratio 2, default decimals. -/
theorem C8_conversion_monotone_witness :
    (3 : ℕ) ≤ (5 : ℕ)
    ∧ 0 ≤ (parse_collateral_entry (entryOf 1 ((3 : ℕ) : Int))
        (marketOf ("0x2::sui::SUI") ((2 : ℕ) : Int)) [] [] []).amount
    ∧ (parse_collateral_entry (entryOf 1 ((3 : ℕ) : Int))
        (marketOf ("0x2::sui::SUI") ((2 : ℕ) : Int)) [] [] []).amount
      ≤ (parse_collateral_entry (entryOf 1 ((5 : ℕ) : Int))
        (marketOf ("0x2::sui::SUI") ((2 : ℕ) : Int)) [] [] []).amount :=
  ⟨by norm_num,
   (C8_conversion_monotone 1 3 5 2 ("0x2::sui::SUI") [] [] [] (by norm_num)).1,
   (C8_conversion_monotone 1 3 5 2 ("0x2::sui::SUI") [] [] [] (by norm_num)).2⟩

/-- Witness for C5: the alias-fallback branch applied to the concrete
XBTC table, and the no-alias branch applied to the empty tables. -/
theorem C5_resolve_price_witness :
    resolve_price ("XBTC") [(("BTC"), 100000)] [(("XBTC"), ("BTC"))]
      = dictGetQ [(("BTC"), 100000)] ("BTC")
    ∧ resolve_price ("DOGE") [] [] = 0 :=
  ⟨(((C5_resolve_price ("XBTC") [(("BTC"), 100000)]
      [(("XBTC"), ("BTC"))]).2.1 (Or.inl rfl)).1 ("BTC") rfl).1,
   ((C5_resolve_price ("DOGE") [] []).2.1 (Or.inl rfl)).2 rfl⟩

/-- String append concatenates the character lists. -/
theorem strData_append (a b : String) : (a ++ b).data = a.data ++ b.data := rfl

/-- Every list starts with itself followed by anything. -/
theorem charsStartWith_self_append (n rest : List Char) :
    charsStartWith n (n ++ rest) = true := by
  induction n with
  | nil => rfl
  | cons c cs ih => simp [charsStartWith, ih]

/-- A needle at the start of a list occurs in it. -/
theorem charsHaveSeg_of_start (n t : List Char) (h : charsStartWith n t = true) :
    charsHaveSeg n t = true := by
  cases t with
  | nil => simpa [charsHaveSeg] using h
  | cons c r => simp [charsHaveSeg, h]

/-- Occurrence is preserved under consing a character in front. -/
theorem charsHaveSeg_cons (n : List Char) (c : Char) (t : List Char)
    (h : charsHaveSeg n t = true) : charsHaveSeg n (c :: t) = true := by
  simp [charsHaveSeg, h]

/-- Occurrence is preserved under prepending any list. -/
theorem charsHaveSeg_append (n s t : List Char) (h : charsHaveSeg n t = true) :
    charsHaveSeg n (s ++ t) = true := by
  induction s with
  | nil => simpa using h
  | cons c cs ih => exact charsHaveSeg_cons n c (cs ++ t) ih

/-- A list that begins with the needle contains it. -/
theorem charsHaveSeg_self_append (n rest : List Char) :
    charsHaveSeg n (n ++ rest) = true :=
  charsHaveSeg_of_start n (n ++ rest) (charsStartWith_self_append n rest)

/-- The per-pair no-positions log message always carries the fixed
phrase, whatever the wallet label, protocol, chain and timestamp. -/
theorem no_positions_log_contains (label proto chain now : String) :
    strHasSeg ("No active positions found.")
      (no_positions_log label proto chain now) = true := by
  rw [strHasSeg, no_positions_log]
  simp only [strData_append, List.append_assoc]
  apply charsHaveSeg_append
  apply charsHaveSeg_append
  apply charsHaveSeg_append
  apply charsHaveSeg_append
  apply charsHaveSeg_append
  apply charsHaveSeg_append
  exact charsHaveSeg_self_append _ _

/-- Mapping a function that is `none` on every element reduces to the
empty list. -/
theorem reduceOption_map_none {α β : Type} (l : List α) (f : α → Option β)
    (h : ∀ x ∈ l, f x = none) : (l.map f).reduceOption = [] := by
  induction l with
  | nil => rfl
  | cons x xs ih =>
      rw [List.map_cons, h x (by simp), List.reduceOption_cons_of_none]
      exact ih (fun y hy => h y (by simp [hy]))

/-- Claim C9 counterexample: in a daily report where wallet A's
monitored protocol has zero positions while wallet B has one, the
report body contains no "No active positions found" message at all:
the empty pair is silently omitted. -/
theorem C9_counterexample :
    sampleFetch (sampleWalletA.address) ("alphalend") = []
    ∧ strHasSeg ("No active positions found")
        (daily_report_body [sampleWalletA, sampleWalletB] [("alphalend")]
          sampleFetch sampleFmtLine) = false :=
  ⟨rfl, rfl⟩

/-- Claim C9 as amended: the periodic check (`check_and_alert`) emits,
for every monitored wallet×protocol pair that yields zero positions, a
log message for that pair, and that message carries the phrase "No
active positions found."; the daily report instead emits the global
no-positions body exactly when no wallet produced any line, and
otherwise omits empty pairs silently. -/
theorem C9_no_positions_messages :
    (∀ (wallets : List WalletCfg) (adapters : List String)
        (fetch : String → String → List PositionData)
        (fmt_pos : PositionData → String → String → String → String)
        (now : String) (w : WalletCfg) (proto : String),
        w ∈ wallets → proto ∈ w.protocols → hasAdapter adapters proto = true →
        fetch w.address proto = [] →
        no_positions_log w.label proto w.chain now
          ∈ check_and_alert_logs wallets adapters fetch fmt_pos now)
    ∧ (∀ label proto chain now : String,
        strHasSeg ("No active positions found.")
          (no_positions_log label proto chain now) = true)
    ∧ (∀ (wallets : List WalletCfg) (adapters : List String)
        (fetch : String → String → List PositionData)
        (fmt_line : String → PositionData → String),
        (∀ w ∈ wallets, daily_wallet_lines w adapters fetch fmt_line = []) →
        daily_report_body wallets adapters fetch fmt_line
          = ("No active positions found.")) := by
  refine ⟨?_, ?_, ?_⟩
  · intro wallets adapters fetch fmt_pos now w proto hw hp had hempty
    rw [check_and_alert_logs]
    refine List.mem_flatMap.mpr ⟨w, hw, ?_⟩
    refine List.mem_flatMap.mpr ⟨proto, hp, ?_⟩
    rw [if_pos had, hempty]
    simp
  · intro label proto chain now
    exact no_positions_log_contains label proto chain now
  · intro wallets adapters fetch fmt_line hall
    rw [daily_report_body]
    rw [reduceOption_map_none wallets _ (fun w hw => by simp [hall w hw])]
    rfl

/-- Witness for C9: the amended statement applied to the concrete
one-wallet configuration with no positions. -/
theorem C9_no_positions_messages_witness :
    no_positions_log ("W1") ("alphalend") ("sui") ("T")
      ∈ check_and_alert_logs [sampleWalletA] [("alphalend")]
        (fun _ _ => []) (fun _ _ _ _ => ("")) ("T")
    ∧ strHasSeg ("No active positions found.")
        (no_positions_log ("W1") ("alphalend") ("sui") ("T")) = true
    ∧ daily_report_body [sampleWalletA] [("alphalend")]
        (fun _ _ => []) sampleFmtLine = ("No active positions found.") :=
  ⟨C9_no_positions_messages.1 [sampleWalletA] [("alphalend")]
      (fun _ _ => []) (fun _ _ _ _ => ("")) ("T") sampleWalletA ("alphalend")
      (by simp) (by simp [sampleWalletA]) rfl rfl,
   C9_no_positions_messages.2.1 ("W1") ("alphalend") ("sui") ("T"),
   C9_no_positions_messages.2.2 [sampleWalletA] [("alphalend")]
      (fun _ _ => []) sampleFmtLine
      (fun w hw => by
        have hwa : w = sampleWalletA := by simpa using hw
        subst hwa
        rfl)⟩

/-- Claim C10 counterexample: a truthy RPC result whose nested market
payload is missing gets its empty extraction written into the cache,
so the cache does store an empty market record. -/
theorem C10_counterexample :
    (get_market_info [] emptyMarketFetch 7).2 = [(7, PyVal.dict [])]
    ∧ (PyVal.dict []).truthy = false :=
  ⟨rfl, rfl⟩

/-- Claim C10 as amended: a lookup that raises, or whose raw RPC result
is falsy, returns the empty record and leaves the cache unchanged (so
it is re-attempted on the next call); a truthy raw result has its
extracted market record written to the cache even when that extraction
is empty; and once a market id is cached, a later lookup returns the
cached record and leaves the cache unchanged. -/
theorem C10_market_cache (cache : List (Int × PyVal))
    (fetch : Int → Option PyVal) (m : Int) :
    (cache.find? (fun p => p.1 == m) = none → fetch m = none →
      get_market_info cache fetch m = (PyVal.dict [], cache))
    ∧ (cache.find? (fun p => p.1 == m) = none →
        ∀ r, fetch m = some r → r.truthy = false →
        get_market_info cache fetch m = (PyVal.dict [], cache))
    ∧ (cache.find? (fun p => p.1 == m) = none →
        ∀ r, fetch m = some r → r.truthy = true →
        get_market_info cache fetch m = (extract_market r, (m, extract_market r) :: cache))
    ∧ (∀ p, cache.find? (fun q => q.1 == m) = some p →
        get_market_info cache fetch m = (p.2, cache)) := by
  refine ⟨?_, ?_, ?_, ?_⟩
  · intro h1 h2
    simp [get_market_info, h1, h2]
  · intro h1 r h2 h3
    simp [get_market_info, h1, h2, h3]
  · intro h1 r h2 h3
    simp [get_market_info, h1, h2, h3]
  · intro p h
    simp [get_market_info, h]

/-- Witness for C10: the raising branch on the empty cache, and the
cache-hit branch on a one-entry cache. -/
theorem C10_market_cache_witness :
    get_market_info [] (fun _ => none) 7 = (PyVal.dict [], [])
    ∧ get_market_info [(5, PyVal.dict [(("x"), PyVal.int 1)])] (fun _ => none) 5
      = (PyVal.dict [(("x"), PyVal.int 1)],
         [(5, PyVal.dict [(("x"), PyVal.int 1)])]) :=
  ⟨(C10_market_cache [] (fun _ => none) 7).1 rfl rfl,
   (C10_market_cache [(5, PyVal.dict [(("x"), PyVal.int 1)])] (fun _ => none) 5).2.2.2
      (5, PyVal.dict [(("x"), PyVal.int 1)]) rfl⟩
